import Mathlib

/-!
Verification of the FR-Mobile power/time core against its specification.

The definitions below are a shallow embedding of the C++ sources:
* `src/src/hardware/power_manager.cpp` (battery policy, peripheral
  sequencing, sleep-duration validation),
* `src/src/data/rtc_time_manager.cpp` (network time sync, drift
  accumulation, sleep schedule, persisted sync statistics).

Machine integers are modelled by `Nat`/`Int`; where C++ truncates to a
fixed width the truncation is written explicitly.  Hardware I/O (GPIO,
I2C, logging, real sleeping) has no functional effect on the modelled
state and is represented by explicit event traces or success flags.
-/

namespace PowerManager

/-- `PeripheralConfig` from `include/hardware/power_manager.h`:
one boolean power flag per peripheral rail. -/
structure PeripheralConfig where
  wifi : Bool
  bluetooth : Bool
  cellular : Bool
  sdcard : Bool
  sensors : Bool
  external5V : Bool
  rtc : Bool
  watchdog : Bool
  deriving Repr, DecidableEq

/-- `PowerConfig` from `include/hardware/power_manager.h`.  Sleep
durations are microseconds (`uint64_t`, modelled as `Nat`); battery
thresholds are percentages (`float`, modelled as `ℚ` since the policy
only compares them). -/
structure PowerConfig where
  maxSleepDuration : Nat
  minSleepDuration : Nat
  lowBatteryThreshold : ℚ
  criticalBatteryThreshold : ℚ
  emergencyShutdownEnabled : Bool
  deriving Repr, DecidableEq

/-- The mutable `PowerManager` state relevant to the battery/sleep
policy: `initialized_`, `powerConfig_`, `peripheralConfig_`,
`emergencyMode_` and the `sleepCycles`/`wakeupEvents` statistics
counters from `powerStats_`. -/
structure PMState where
  initialized : Bool
  powerConfig : PowerConfig
  peripheralConfig : PeripheralConfig
  emergencyMode : Bool
  sleepCycles : Nat
  wakeupEvents : Nat
  deriving Repr, DecidableEq

/-- `EMERGENCY_SLEEP_DURATION = 3600000000ULL` (one hour, µs). -/
def EMERGENCY_SLEEP_DURATION : Nat := 3600000000

/-- `WAKEUP_TIMER = 0x01`. -/
def WAKEUP_TIMER : Nat := 0x01

/-- `PowerManager::validateSleepDuration`: clamp a requested sleep
duration into `[minSleepDuration, maxSleepDuration]`. -/
def validateSleepDuration (cfg : PowerConfig) (sleepTimeUs : Nat) : Nat :=
  if sleepTimeUs < cfg.minSleepDuration then
    cfg.minSleepDuration
  else if sleepTimeUs > cfg.maxSleepDuration then
    cfg.maxSleepDuration
  else
    sleepTimeUs

/-- `PowerManager::enterDeepSleep`: returns early when not initialized
(no sleep happens, modelled by result `none`); otherwise clamps the
duration, updates the cycle statistics and sleeps for the clamped
duration (result `some actualDuration`).  `wakeupSources` is the wakeup
bit mask; it does not affect the slept duration. -/
def enterDeepSleep (s : PMState) (sleepTimeUs : Nat) (wakeupSources : Nat) :
    PMState × Option Nat :=
  if s.initialized = false then
    (s, none)
  else
    let actual := validateSleepDuration s.powerConfig sleepTimeUs
    let _ := wakeupSources
    ({ s with sleepCycles := s.sleepCycles + 1,
              wakeupEvents := s.wakeupEvents + 1 }, some actual)

/-- `PowerManager::enterSleep`: delegates to deep sleep with a timer
wakeup. -/
def enterSleep (s : PMState) (sleepTimeUs : Nat) : PMState × Option Nat :=
  enterDeepSleep s sleepTimeUs WAKEUP_TIMER

/-- `PowerManager::configurePeripherals`: toggles each rail whose flag
differs and then stores the new configuration; the net state effect is
`peripheralConfig_ = config`. -/
def configurePeripherals (s : PMState) (config : PeripheralConfig) : PMState :=
  { s with peripheralConfig := config }

/-- The emergency peripheral configuration built inside
`PowerManager::enterEmergencyMode`: everything off except RTC and
watchdog. -/
def emergencyConfig : PeripheralConfig :=
  { wifi := false, bluetooth := false, cellular := false, sdcard := false,
    sensors := false, external5V := false, rtc := true, watchdog := true }

/-- `PowerManager::enterEmergencyMode`: a no-op when already in
emergency mode; otherwise sets the emergency flag, applies
`emergencyConfig` and enters a one-hour timer-wakeup deep sleep. -/
def enterEmergencyMode (s : PMState) (reason : String) : PMState :=
  let _ := reason
  if s.emergencyMode then s
  else
    let s1 := { s with emergencyMode := true }
    let s2 := configurePeripherals s1 emergencyConfig
    (enterDeepSleep s2 EMERGENCY_SLEEP_DURATION WAKEUP_TIMER).1

/-- `PowerManager::checkBatteryLevel`: the battery policy decision.
Returns the `bool` result together with the successor state. -/
def checkBatteryLevel (s : PMState) (batteryPercent : ℚ) : Bool × PMState :=
  if batteryPercent ≤ s.powerConfig.criticalBatteryThreshold then
    if s.powerConfig.emergencyShutdownEnabled then
      (false, enterEmergencyMode s "Critical battery level")
    else
      (true, s)
  else if batteryPercent ≤ s.powerConfig.lowBatteryThreshold then
    (true, configurePeripherals s
      { s.peripheralConfig with wifi := false, bluetooth := false })
  else
    (true, s)

/-- The power rails touched by `enablePeripherals` /
`disablePeripherals`. -/
inductive Rail where
  | fiveV
  | wifi
  | bluetooth
  | cellular
  | sdcard
  | sensors
  deriving Repr, DecidableEq

/-- Observable events of the peripheral sequencing code: a rail being
switched (`set`), and the 1000 ms stabilization wait after the 5V rail
comes up (`settleWait`). -/
inductive RailEvent where
  | set (rail : Rail) (enabled : Bool)
  | settleWait
  deriving Repr, DecidableEq

/-- Whether `cfg` enables a given downstream rail (the five
`controlPeripheralPower` conditionals). -/
def railEnabled (cfg : PeripheralConfig) : Rail → Bool
  | Rail.fiveV => cfg.external5V
  | Rail.wifi => cfg.wifi
  | Rail.bluetooth => cfg.bluetooth
  | Rail.cellular => cfg.cellular
  | Rail.sdcard => cfg.sdcard
  | Rail.sensors => cfg.sensors

/-- Event trace of `PowerManager::enablePeripherals`: nothing when not
initialized; otherwise 5V up, stabilization wait, then each configured
downstream rail in source order. -/
def enablePeripheralsTrace (initialized : Bool) (cfg : PeripheralConfig) :
    List RailEvent :=
  if initialized = false then []
  else
    [RailEvent.set Rail.fiveV true, RailEvent.settleWait] ++
    (if cfg.wifi then [RailEvent.set Rail.wifi true] else []) ++
    (if cfg.bluetooth then [RailEvent.set Rail.bluetooth true] else []) ++
    (if cfg.cellular then [RailEvent.set Rail.cellular true] else []) ++
    (if cfg.sdcard then [RailEvent.set Rail.sdcard true] else []) ++
    (if cfg.sensors then [RailEvent.set Rail.sensors true] else [])

/-- Event trace of `PowerManager::disablePeripherals`: nothing when not
initialized; otherwise the configured downstream rails in reverse
source order, then 5V down last. -/
def disablePeripheralsTrace (initialized : Bool) (cfg : PeripheralConfig) :
    List RailEvent :=
  if initialized = false then []
  else
    (if cfg.sensors then [RailEvent.set Rail.sensors false] else []) ++
    (if cfg.sdcard then [RailEvent.set Rail.sdcard false] else []) ++
    (if cfg.cellular then [RailEvent.set Rail.cellular false] else []) ++
    (if cfg.bluetooth then [RailEvent.set Rail.bluetooth false] else []) ++
    (if cfg.wifi then [RailEvent.set Rail.wifi false] else []) ++
    [RailEvent.set Rail.fiveV false]

/-- The rails named by a trace, in order. -/
def railSeq (events : List RailEvent) : List Rail :=
  events.filterMap fun e =>
    match e with
    | RailEvent.set r _ => some r
    | RailEvent.settleWait => none

end PowerManager

namespace RTCTimeManager

/-- `RTCDateTime` as used by `rtc_time_manager.cpp` (the struct's own
declaration is not part of the sources; the fields and their uses are).
`year` holds years-since-2000 as written by `parseTimeString`
(`year - 2000`, possibly negative before a hardware write truncates
it); the remaining calendar fields are small unsigned values. -/
structure RTCDateTime where
  year : Int
  month : Nat
  date : Nat
  hours : Nat
  minutes : Nat
  seconds : Nat
  dayOfWeek : Nat
  deriving Repr, DecidableEq

/-- Numeric value of an ASCII digit character. -/
def digitVal (c : Char) : Nat := c.toNat - 48

/-- `RTCTimeManager::calculateDayOfWeek`: Zeller's congruence with C++
truncating `/` and `%` (`Int.tdiv`/`Int.tmod`); the result is converted
to the `uint8_t` return type. -/
def calculateDayOfWeek (year₀ : Int) (month₀ : Nat) (day : Nat) : Nat :=
  let month : Int := if month₀ < 3 then (month₀ : Int) + 12 else month₀
  let year : Int := if month₀ < 3 then year₀ - 1 else year₀
  let k := year.tmod 100
  let j := year.tdiv 100
  let h := ((day : Int) + ((13 * (month + 1)).tdiv 5) + k + k.tdiv 4 +
            j.tdiv 4 - 2 * j).tmod 7
  (((h + 5).tmod 7 + 1).emod 256).toNat

/-- `RTCTimeManager::parseTimeString`: accepts exactly the two regex
shapes `YYYY-MM-DDTHH:MM:SS` and `YYYY-MM-DD HH:MM:SS` (full-string
matches, ASCII digits); any other input fails.  On success the
components are extracted without further range validation. -/
def parseTimeString (s : String) : Option RTCDateTime :=
  match s.data with
  | [y1, y2, y3, y4, p1, mo1, mo2, p2, d1, d2, sep,
     h1, h2, q1, mi1, mi2, q2, se1, se2] =>
    if (y1.isDigit && y2.isDigit && y3.isDigit && y4.isDigit &&
        p1 == '-' && mo1.isDigit && mo2.isDigit && p2 == '-' &&
        d1.isDigit && d2.isDigit && (sep == 'T' || sep == ' ') &&
        h1.isDigit && h2.isDigit && q1 == ':' &&
        mi1.isDigit && mi2.isDigit && q2 == ':' &&
        se1.isDigit && se2.isDigit) then
      let year := 1000 * digitVal y1 + 100 * digitVal y2 +
                  10 * digitVal y3 + digitVal y4
      let month := 10 * digitVal mo1 + digitVal mo2
      let date := 10 * digitVal d1 + digitVal d2
      some { year := (year : Int) - 2000
             month := month
             date := date
             hours := 10 * digitVal h1 + digitVal h2
             minutes := 10 * digitVal mi1 + digitVal mi2
             seconds := 10 * digitVal se1 + digitVal se2
             dayOfWeek := calculateDayOfWeek (year : Int) month date }
    else none
  | _ => none

/-- `RTCTimeManager::calculateDrift`: simplified linear difference
`seconds + minutes*60 + hours*3600 + date*86400` between the two
readings; month and year are ignored. -/
def calculateDrift (rtcTime actualTime : RTCDateTime) : Int :=
  let rtcSeconds : Int := (rtcTime.seconds : Int) + (rtcTime.minutes : Int) * 60 +
    (rtcTime.hours : Int) * 3600 + (rtcTime.date : Int) * 86400
  let actualSeconds : Int := (actualTime.seconds : Int) + (actualTime.minutes : Int) * 60 +
    (actualTime.hours : Int) * 3600 + (actualTime.date : Int) * 86400
  actualSeconds - rtcSeconds

/-- The `RTCTimeManager` state relevant to time synchronisation:
`initialized_`, `hasValidTime_`, the sync counters, the accumulated
absolute drift, and the hardware RTC's current time (`hw = none` models
an unreadable clock). -/
structure RTCState where
  initialized : Bool
  hasValidTime : Bool
  syncAttempts : Nat
  successfulSyncs : Nat
  totalDriftSeconds : Int
  hw : Option RTCDateTime
  deriving Repr, DecidableEq

/-- Constructor state: not initialized, no valid time, all counters
zero. -/
def initialRTCState (hw : Option RTCDateTime) : RTCState :=
  { initialized := false, hasValidTime := false, syncAttempts := 0,
    successfulSyncs := 0, totalDriftSeconds := 0, hw := hw }

/-- `RTCTimeManager::setTimeFromNetwork`.  `readOk`/`writeOk` inject the
success of the `readDateTime`/`writeDateTime` hardware accesses.  On any
failure (not initialized, parse failure, write failure) the state is
returned unchanged with result `false`.  On success the new time is
written to the hardware clock, the absolute drift is accumulated when a
prior valid time was readable, and both sync counters are
incremented. -/
def setTimeFromNetwork (s : RTCState) (networkTime : String)
    (readOk writeOk : Bool) : Bool × RTCState :=
  if s.initialized = false then (false, s)
  else
    match parseTimeString networkTime with
    | none => (false, s)
    | some newTime =>
      let prior : Option RTCDateTime :=
        if s.hasValidTime && readOk then s.hw else none
      if writeOk = false then (false, s)
      else
        let s1 := { s with hw := some newTime }
        let s2 :=
          match prior with
          | some currentTime =>
            { s1 with totalDriftSeconds :=
                s1.totalDriftSeconds + |calculateDrift currentTime newTime| }
          | none => s1
        (true, { s2 with syncAttempts := s2.syncAttempts + 1,
                         successfulSyncs := s2.successfulSyncs + 1,
                         hasValidTime := true })

/-- Run a sequence of `setTimeFromNetwork` calls, each with its own time
string and injected hardware-success flags. -/
def runSyncSeq (s : RTCState) (inputs : List (String × Bool × Bool)) : RTCState :=
  inputs.foldl (fun st i => (setTimeFromNetwork st i.1 i.2.1 i.2.2).2) s

/-- Run a sequence of `setTimeFromNetwork` calls on healthy hardware
(all reads and writes succeed). -/
def runSyncOk (s : RTCState) (times : List String) : RTCState :=
  times.foldl (fun st t => (setTimeFromNetwork st t true true).2) s

/-- Sum of the absolute simplified drifts along a chain of consecutive
authoritative times starting from hardware time `prev`. -/
def driftAbsSum (prev : RTCDateTime) : List RTCDateTime → Int
  | [] => 0
  | t :: rest => |calculateDrift prev t| + driftAbsSum t rest

/-- `RTCTimeManager::savePersistedData`: the 12-byte record written to
the DS1307 battery-backed RAM — magic `0xA5 0x5A`, big-endian 2-byte
sync-attempt and successful-sync counters, big-endian 4-byte
two's-complement accumulated drift, two reserved zero bytes. -/
def savePersistedData (s : RTCState) : List Nat :=
  let a := s.syncAttempts
  let c := s.successfulSyncs
  let u := (s.totalDriftSeconds % 4294967296).toNat
  [0xA5, 0x5A,
   a / 256 % 256, a % 256,
   c / 256 % 256, c % 256,
   u / 16777216 % 256, u / 65536 % 256, u / 256 % 256, u % 256,
   0, 0]

/-- `RTCTimeManager::loadPersistedData`: given the 12 bytes read back
from battery-backed RAM, restore the counters when the magic number
matches; otherwise (wrong magic, or the read failed and produced no
buffer) leave the state untouched. -/
def loadPersistedData (s : RTCState) (data : List Nat) : RTCState :=
  match data with
  | d0 :: d1 :: d2 :: d3 :: d4 :: d5 :: d6 :: d7 :: d8 :: d9 :: _ =>
    if d0 == 0xA5 && d1 == 0x5A then
      let u := d6 * 16777216 + d7 * 65536 + d8 * 256 + d9
      { s with syncAttempts := d2 * 256 + d3,
               successfulSyncs := d4 * 256 + d5,
               totalDriftSeconds :=
                 if u < 2147483648 then (u : Int) else (u : Int) - 4294967296 }
    else s
  | _ => s

/-- `SleepSchedule` as used by `rtc_time_manager.cpp` (night start/end
hours, night/day sleep durations in minutes, enabled flag). -/
structure SleepSchedule where
  nightStartHour : Nat
  nightEndHour : Nat
  nightSleepMinutes : Nat
  daySleepMinutes : Nat
  enabled : Bool
  deriving Repr, DecidableEq

/-- The night test of `RTCTimeManager::getNightSleepDuration`: wrap-aware
when the night period crosses midnight. -/
def isNightHour (sched : SleepSchedule) (currentHour : Nat) : Bool :=
  if sched.nightStartHour > sched.nightEndHour then
    decide (currentHour ≥ sched.nightStartHour) ||
    decide (currentHour < sched.nightEndHour)
  else
    decide (currentHour ≥ sched.nightStartHour) &&
    decide (currentHour < sched.nightEndHour)

/-- The hour-level core of `RTCTimeManager::getNightSleepDuration`:
given the parsed current hour, choose the night or day sleep duration
and convert minutes to microseconds. -/
def nightSleepDurationAtHour (sched : SleepSchedule) (currentHour : Nat) : Nat :=
  if sched.enabled = false then
    sched.daySleepMinutes * 60 * 1000000
  else
    let sleepMinutes :=
      if isNightHour sched currentHour then sched.nightSleepMinutes
      else sched.daySleepMinutes
    sleepMinutes * 60 * 1000000

/-- The hour extracted by `getNightSleepDuration`'s regex
`\d{4}-\d{2}-\d{2}T(\d{2}):(\d{2}):(\d{2})` (full match, `T` separator
only); `none` when the string does not match. -/
def hourOfTimeString (s : String) : Option Nat :=
  match s.data with
  | [y1, y2, y3, y4, p1, mo1, mo2, p2, d1, d2, sep,
     h1, h2, q1, mi1, mi2, q2, se1, se2] =>
    if (y1.isDigit && y2.isDigit && y3.isDigit && y4.isDigit &&
        p1 == '-' && mo1.isDigit && mo2.isDigit && p2 == '-' &&
        d1.isDigit && d2.isDigit && sep == 'T' &&
        h1.isDigit && h2.isDigit && q1 == ':' &&
        mi1.isDigit && mi2.isDigit && q2 == ':' &&
        se1.isDigit && se2.isDigit) then
      some (10 * digitVal h1 + digitVal h2)
    else none
  | _ => none

/-- `RTCTimeManager::getNightSleepDuration` on a time string: day
duration when the schedule is disabled or the string fails to parse,
otherwise the hour-level policy. -/
def getNightSleepDuration (sched : SleepSchedule) (currentTime : String) : Nat :=
  if sched.enabled = false then
    sched.daySleepMinutes * 60 * 1000000
  else
    match hourOfTimeString currentTime with
    | none => sched.daySleepMinutes * 60 * 1000000
    | some h => nightSleepDurationAtHour sched h

end RTCTimeManager

namespace PowerManager

/-- A concrete power-manager state used to instantiate theorem
hypotheses: default thresholds (critical 5 %, low 15 %), emergency
shutdown enabled, all discretionary peripherals on. -/
def samplePMState : PMState :=
  { initialized := true
    powerConfig :=
      { maxSleepDuration := 3600000000, minSleepDuration := 1000000,
        lowBatteryThreshold := 15, criticalBatteryThreshold := 5,
        emergencyShutdownEnabled := true }
    peripheralConfig :=
      { wifi := true, bluetooth := true, cellular := true, sdcard := true,
        sensors := true, external5V := true, rtc := true, watchdog := true }
    emergencyMode := false
    sleepCycles := 0
    wakeupEvents := 0 }

/-- C1: battery policy of `checkBatteryLevel` with inclusive thresholds.
At or below the critical threshold, with emergency shutdown enabled the
call invokes `enterEmergencyMode` and returns `false`; with it disabled
the call returns `true` (unchanged state).  Strictly between critical
and low (inclusive), WiFi and Bluetooth are shed via
`configurePeripherals` and the call returns `true`.  Above the low
threshold the call returns `true` with no change. -/
theorem checkBatteryLevel_policy (s : PMState) (p : ℚ)
    (hThresh : s.powerConfig.criticalBatteryThreshold ≤
               s.powerConfig.lowBatteryThreshold) :
    (p ≤ s.powerConfig.criticalBatteryThreshold →
      (s.powerConfig.emergencyShutdownEnabled = true →
        checkBatteryLevel s p =
          (false, enterEmergencyMode s "Critical battery level")) ∧
      (s.powerConfig.emergencyShutdownEnabled = false →
        checkBatteryLevel s p = (true, s))) ∧
    (s.powerConfig.criticalBatteryThreshold < p →
      p ≤ s.powerConfig.lowBatteryThreshold →
      checkBatteryLevel s p = (true, configurePeripherals s
        { s.peripheralConfig with wifi := false, bluetooth := false })) ∧
    (s.powerConfig.lowBatteryThreshold < p →
      checkBatteryLevel s p = (true, s)) := by
  refine ⟨fun hp => ⟨fun he => ?_, fun he => ?_⟩,
          fun h1 h2 => ?_, fun h => ?_⟩
  · simp [checkBatteryLevel, hp, he]
  · simp [checkBatteryLevel, hp, he]
  · simp [checkBatteryLevel, not_le.mpr h1, h2]
  · have h1 : ¬ p ≤ s.powerConfig.criticalBatteryThreshold :=
      not_le.mpr (lt_of_le_of_lt hThresh h)
    simp [checkBatteryLevel, h1, not_le.mpr h]

/-- Witness for C1: at exactly the critical threshold (5 %) with
emergency shutdown enabled, the sample state enters emergency mode and
the call returns `false`. -/
theorem checkBatteryLevel_policy_witness :
    checkBatteryLevel samplePMState 5 =
      (false, enterEmergencyMode samplePMState "Critical battery level") :=
  ((checkBatteryLevel_policy samplePMState 5 (by norm_num [samplePMState])).1
    (by norm_num [samplePMState])).1 rfl

/-- C10: at or below the critical threshold with emergency shutdown
disabled, `checkBatteryLevel` returns `true` and the whole state —
including the peripheral configuration — is unchanged: the low-battery
WiFi/Bluetooth shedding branch is skipped. -/
theorem checkBatteryLevel_noShutdown_frame (s : PMState) (p : ℚ)
    (hp : p ≤ s.powerConfig.criticalBatteryThreshold)
    (he : s.powerConfig.emergencyShutdownEnabled = false) :
    checkBatteryLevel s p = (true, s) := by
  simp [checkBatteryLevel, hp, he]

/-- Witness for C10: battery at 2 % (below both thresholds) with
emergency shutdown disabled leaves the state untouched. -/
theorem checkBatteryLevel_noShutdown_frame_witness :
    checkBatteryLevel
      { samplePMState with powerConfig :=
          { samplePMState.powerConfig with emergencyShutdownEnabled := false } }
      2 =
    (true,
      { samplePMState with powerConfig :=
          { samplePMState.powerConfig with emergencyShutdownEnabled := false } }) :=
  checkBatteryLevel_noShutdown_frame _ 2 (by norm_num [samplePMState]) rfl

/-- C2: for every configured peripheral subset, `enablePeripherals`
switches the 5V rail first and waits for it to settle before touching
any downstream rail, then brings up the configured rails in the order
WiFi, Bluetooth, Cellular, SD card, Sensors; `disablePeripherals`
switches the same rails in exactly the reverse order with the 5V rail
last. -/
theorem peripheral_sequencing (cfg : PeripheralConfig) :
    railSeq (enablePeripheralsTrace true cfg) =
      Rail.fiveV ::
        ([Rail.wifi, Rail.bluetooth, Rail.cellular, Rail.sdcard,
          Rail.sensors].filter (railEnabled cfg)) ∧
    railSeq (disablePeripheralsTrace true cfg) =
      (railSeq (enablePeripheralsTrace true cfg)).reverse ∧
    (enablePeripheralsTrace true cfg).take 2 =
      [RailEvent.set Rail.fiveV true, RailEvent.settleWait] ∧
    (disablePeripheralsTrace true cfg).getLast? =
      some (RailEvent.set Rail.fiveV false) := by
  obtain ⟨w, b, c, sd, se, e5, r, wd⟩ := cfg
  cases w <;> cases b <;> cases c <;> cases sd <;> cases se <;>
    exact ⟨rfl, rfl, rfl, rfl⟩

/-- C3: `enterSleep` (which delegates to `enterDeepSleep`) never errors
on an out-of-range duration: for an initialized manager the actual sleep
duration is the requested one clamped into
`[minSleepDuration, maxSleepDuration]`. -/
theorem enterSleep_clamps (s : PMState) (d : Nat)
    (hinit : s.initialized = true)
    (hwf : s.powerConfig.minSleepDuration ≤ s.powerConfig.maxSleepDuration) :
    (enterSleep s d).2 = some (validateSleepDuration s.powerConfig d) ∧
    (d < s.powerConfig.minSleepDuration →
      (enterSleep s d).2 = some s.powerConfig.minSleepDuration) ∧
    (s.powerConfig.maxSleepDuration < d →
      (enterSleep s d).2 = some s.powerConfig.maxSleepDuration) ∧
    (s.powerConfig.minSleepDuration ≤ d → d ≤ s.powerConfig.maxSleepDuration →
      (enterSleep s d).2 = some d) := by
  have hbase : (enterSleep s d).2 = some (validateSleepDuration s.powerConfig d) := by
    simp [enterSleep, enterDeepSleep, hinit]
  refine ⟨hbase, fun hlt => ?_, fun hgt => ?_, fun hge hle => ?_⟩
  · rw [hbase]
    simp [validateSleepDuration, hlt]
  · rw [hbase]
    have : ¬ d < s.powerConfig.minSleepDuration := by omega
    simp [validateSleepDuration, this, hgt]
  · rw [hbase]
    have h1 : ¬ d < s.powerConfig.minSleepDuration := by omega
    have h2 : ¬ s.powerConfig.maxSleepDuration < d := by omega
    simp [validateSleepDuration, h1, h2]

/-- Witness for C3: requesting a 1 µs sleep on the sample state (minimum
1 s) yields an actual duration of exactly the minimum. -/
theorem enterSleep_clamps_witness :
    (enterSleep samplePMState 1).2 = some 1000000 :=
  (enterSleep_clamps samplePMState 1 rfl (by norm_num [samplePMState])).2.1
    (by norm_num [samplePMState])

end PowerManager

namespace RTCTimeManager

/-- The boolean night test agrees with the wrap-aware interval
membership predicate of the specification. -/
lemma isNightHour_iff (sched : SleepSchedule) (hour : Nat) :
    isNightHour sched hour = true ↔
      (if sched.nightStartHour > sched.nightEndHour then
        hour ≥ sched.nightStartHour ∨ hour < sched.nightEndHour
      else
        sched.nightStartHour ≤ hour ∧ hour < sched.nightEndHour) := by
  unfold isNightHour
  split_ifs <;> simp

/-- C4: the sleep-duration evaluator returns the night duration exactly
when the wrap-aware membership test holds (night wraps past midnight
when `nightStart > nightEnd`), returns the day duration otherwise, and
returns the day duration unconditionally when the schedule is disabled.
For `nightStart = 22`, `nightEnd = 6` the night hours are exactly those
with `hour ≥ 22 ∨ hour < 6` (so 22, 23, 0–5 among the hours 0–23). -/
theorem nightSleepDuration_membership (sched : SleepSchedule) (hour n d : Nat) :
    (nightSleepDurationAtHour sched hour =
      if sched.enabled = false then sched.daySleepMinutes * 60 * 1000000
      else if (if sched.nightStartHour > sched.nightEndHour then
                 hour ≥ sched.nightStartHour ∨ hour < sched.nightEndHour
               else
                 sched.nightStartHour ≤ hour ∧ hour < sched.nightEndHour) then
        sched.nightSleepMinutes * 60 * 1000000
      else
        sched.daySleepMinutes * 60 * 1000000) ∧
    (nightSleepDurationAtHour
        { nightStartHour := 22, nightEndHour := 6, nightSleepMinutes := n,
          daySleepMinutes := d, enabled := true } hour =
      if 22 ≤ hour ∨ hour < 6 then n * 60 * 1000000 else d * 60 * 1000000) := by
  constructor
  · by_cases he : sched.enabled = false
    · simp [nightSleepDurationAtHour, he]
    · simp only [nightSleepDurationAtHour, he, if_false]
      by_cases hn : isNightHour sched hour = true
      · rw [if_pos hn, if_pos ((isNightHour_iff sched hour).mp hn)]
      · rw [if_neg hn, if_neg (fun hm => hn ((isNightHour_iff sched hour).mpr hm))]
  · by_cases h22 : 22 ≤ hour <;> by_cases h6 : hour < 6 <;>
      simp [nightSleepDurationAtHour, isNightHour, h22, h6]

/-- C9 counterexample: with the schedule enabled and
`nightStartHour = nightEndHour = 5` (night 30 min, day 5 min), hour 3 is
treated as day — the evaluator returns the day duration
(300 000 000 µs), not the night duration, so the night interval is
empty, not full-day. -/
theorem nightEqualBounds_counterexample :
    nightSleepDurationAtHour
      { nightStartHour := 5, nightEndHour := 5, nightSleepMinutes := 30,
        daySleepMinutes := 5, enabled := true } 3 = 300000000 ∧
    ¬ nightSleepDurationAtHour
      { nightStartHour := 5, nightEndHour := 5, nightSleepMinutes := 30,
        daySleepMinutes := 5, enabled := true } 3 = 1800000000 := by
  decide

/-- C9 (amended): when the schedule is enabled and
`nightStartHour = nightEndHour`, the night interval is empty — every
hour is treated as day and the evaluator returns the day duration. -/
theorem nightEqualBounds_allDay (sched : SleepSchedule) (hour : Nat)
    (he : sched.enabled = true)
    (heq : sched.nightStartHour = sched.nightEndHour) :
    nightSleepDurationAtHour sched hour =
      sched.daySleepMinutes * 60 * 1000000 := by
  have hb : isNightHour sched hour = false := by
    unfold isNightHour
    rw [heq]
    simp only [lt_irrefl, if_false, gt_iff_lt]
    by_cases h : hour < sched.nightEndHour
    · have : ¬ sched.nightEndHour ≤ hour := by omega
      simp [this]
    · simp [h]
  simp [nightSleepDurationAtHour, he, hb]

/-- Witness for C9 (amended): schedule 7→7, hour 12 gives the day
duration. -/
theorem nightEqualBounds_allDay_witness :
    nightSleepDurationAtHour
      { nightStartHour := 7, nightEndHour := 7, nightSleepMinutes := 30,
        daySleepMinutes := 5, enabled := true } 12 = 5 * 60 * 1000000 :=
  nightEqualBounds_allDay _ 12 rfl rfl

/-- One `setTimeFromNetwork` call either leaves both sync counters
unchanged (any failure path) or increments both by one (success). -/
lemma setTimeFromNetwork_counter_step (s : RTCState) (t : String)
    (ro wo : Bool) :
    ((setTimeFromNetwork s t ro wo).2.syncAttempts = s.syncAttempts ∧
     (setTimeFromNetwork s t ro wo).2.successfulSyncs = s.successfulSyncs) ∨
    ((setTimeFromNetwork s t ro wo).2.syncAttempts = s.syncAttempts + 1 ∧
     (setTimeFromNetwork s t ro wo).2.successfulSyncs = s.successfulSyncs + 1) := by
  by_cases hi : s.initialized = false
  · left; simp [setTimeFromNetwork, hi]
  · cases hp : parseTimeString t with
    | none => left; simp [setTimeFromNetwork, hi, hp]
    | some nt =>
      by_cases hwo : wo = false
      · left; simp [setTimeFromNetwork, hi, hp, hwo]
      · right
        cases hv : s.hasValidTime <;> cases hro : ro <;> cases hhw : s.hw <;>
          simp [setTimeFromNetwork, hi, hp, hwo, hv, hro, hhw]

/-- A concrete RTC state used to instantiate theorem hypotheses:
initialized, valid time, zero counters, hardware clock readable at
2025-03-14 12:30:45. -/
def rtcSampleState : RTCState :=
  { initialized := true, hasValidTime := true, syncAttempts := 0,
    successfulSyncs := 0, totalDriftSeconds := 0,
    hw := some { year := 25, month := 3, date := 14, hours := 12,
                 minutes := 30, seconds := 45, dayOfWeek := 5 } }

/-- C5: starting from any state whose counters satisfy
`successfulSyncs ≤ syncAttempts` (in particular the zero-initialized
constructor state), the invariant holds after every sequence of
`setTimeFromNetwork` calls, parse failures included; moreover a call
whose time string fails to parse returns `false` and leaves the entire
state — both counters included — unchanged. -/
theorem syncCounters_invariant (s : RTCState)
    (inputs : List (String × Bool × Bool))
    (h : s.successfulSyncs ≤ s.syncAttempts) :
    (runSyncSeq s inputs).successfulSyncs ≤
      (runSyncSeq s inputs).syncAttempts ∧
    (∀ t ro wo, parseTimeString t = none →
      setTimeFromNetwork s t ro wo = (false, s)) := by
  constructor
  · induction inputs generalizing s with
    | nil => simpa [runSyncSeq]
    | cons i rest ih =>
      simp only [runSyncSeq, List.foldl_cons]
      rcases setTimeFromNetwork_counter_step s i.1 i.2.1 i.2.2 with
        ⟨h1, h2⟩ | ⟨h1, h2⟩ <;>
        exact ih _ (by omega)
  · intro t ro wo hp
    by_cases hi : s.initialized = false <;> simp [setTimeFromNetwork, hi, hp]

/-- Witness for C5: a failed cellular-format parse followed by a
successful ISO parse keeps `successfulSyncs ≤ syncAttempts`, and the
failed parse leaves the state unchanged. -/
theorem syncCounters_invariant_witness :
    (runSyncSeq rtcSampleState
      [("25/03/14,12:30:45+00", true, true),
       ("2025-03-14T12:31:45", true, true)]).successfulSyncs ≤
    (runSyncSeq rtcSampleState
      [("25/03/14,12:30:45+00", true, true),
       ("2025-03-14T12:31:45", true, true)]).syncAttempts ∧
    setTimeFromNetwork rtcSampleState "25/03/14,12:30:45+00" true true =
      (false, rtcSampleState) :=
  ⟨(syncCounters_invariant rtcSampleState
      [("25/03/14,12:30:45+00", true, true),
       ("2025-03-14T12:31:45", true, true)] (by decide)).1,
   (syncCounters_invariant rtcSampleState [] (by decide)).2
      "25/03/14,12:30:45+00" true true (by decide)⟩

/-- A successful `setTimeFromNetwork` call from a state with a readable
valid hardware time: the new time is written, the absolute drift is
accumulated, both counters are incremented. -/
lemma setTimeFromNetwork_success (s : RTCState) (t : String)
    (nt t₀ : RTCDateTime) (hi : s.initialized = true)
    (hv : s.hasValidTime = true) (hw : s.hw = some t₀)
    (hp : parseTimeString t = some nt) :
    (setTimeFromNetwork s t true true).2 =
      { s with hw := some nt,
               totalDriftSeconds :=
                 s.totalDriftSeconds + |calculateDrift t₀ nt|,
               syncAttempts := s.syncAttempts + 1,
               successfulSyncs := s.successfulSyncs + 1,
               hasValidTime := true } := by
  simp [setTimeFromNetwork, hi, hp, hv, hw]

/-- Accumulated drift after a chain of successful syncs on healthy
hardware: each call contributes the absolute simplified drift between
the previous hardware time and the new authoritative time. -/
lemma runSyncOk_drift (ts : List String) :
    ∀ (s : RTCState) (t₀ : RTCDateTime), s.initialized = true →
      s.hasValidTime = true → s.hw = some t₀ →
      (∀ x ∈ ts, (parseTimeString x).isSome = true) →
      (runSyncOk s ts).totalDriftSeconds =
        s.totalDriftSeconds + driftAbsSum t₀ (ts.filterMap parseTimeString) := by
  induction ts with
  | nil =>
    intro s t₀ _ _ _ _
    simp [runSyncOk, driftAbsSum]
  | cons t rest ih =>
    intro s t₀ hi hv hw hp
    obtain ⟨nt, hnt⟩ :=
      Option.isSome_iff_exists.mp (hp t (List.mem_cons_self t rest))
    have hstep := setTimeFromNetwork_success s t nt t₀ hi hv hw hnt
    simp only [runSyncOk, List.foldl_cons] at *
    rw [hstep]
    have := ih { s with hw := some nt,
                        totalDriftSeconds :=
                          s.totalDriftSeconds + |calculateDrift t₀ nt|,
                        syncAttempts := s.syncAttempts + 1,
                        successfulSyncs := s.successfulSyncs + 1,
                        hasValidTime := true }
      nt hi rfl rfl (fun x hx => hp x (List.mem_cons_of_mem t hx))
    rw [this]
    simp [List.filterMap_cons, hnt, driftAbsSum, add_assoc]

/-- C6: after `N` successful `setTimeFromNetwork` calls on healthy
hardware, each performed while a prior valid hardware time was readable,
`totalDriftSeconds` equals the sum over the calls of the absolute
simplified linear drift (seconds + minutes·60 + hours·3600 +
day-of-month·86400, month and year ignored) between the new
authoritative time and the current hardware time. -/
theorem totalDrift_eq_sum_absDrifts (s : RTCState) (ts : List String)
    (t₀ : RTCDateTime) (hi : s.initialized = true)
    (hv : s.hasValidTime = true) (hw : s.hw = some t₀)
    (hz : s.totalDriftSeconds = 0)
    (hp : ∀ x ∈ ts, (parseTimeString x).isSome = true) :
    (runSyncOk s ts).totalDriftSeconds =
      driftAbsSum t₀ (ts.filterMap parseTimeString) := by
  rw [runSyncOk_drift ts s t₀ hi hv hw hp, hz, zero_add]

/-- Witness for C6: two successful syncs, one minute apart each, from
the sample state accumulate the sum of the two absolute drifts. -/
theorem totalDrift_eq_sum_absDrifts_witness :
    (runSyncOk rtcSampleState
      ["2025-03-14T12:31:45", "2025-03-14T12:29:45"]).totalDriftSeconds =
      driftAbsSum
        { year := 25, month := 3, date := 14, hours := 12, minutes := 30,
          seconds := 45, dayOfWeek := 5 }
        (["2025-03-14T12:31:45", "2025-03-14T12:29:45"].filterMap
          parseTimeString) :=
  totalDrift_eq_sum_absDrifts rtcSampleState
    ["2025-03-14T12:31:45", "2025-03-14T12:29:45"]
    { year := 25, month := 3, date := 14, hours := 12, minutes := 30,
      seconds := 45, dayOfWeek := 5 }
    rfl rfl rfl rfl (by decide)

/-- Recombining the two big-endian bytes of a 16-bit counter restores
the counter. -/
lemma counterBytes_roundtrip (a : Nat) (h : a < 65536) :
    a / 256 % 256 * 256 + a % 256 = a := by omega

/-- Recombining the four big-endian two's-complement bytes of a 32-bit
signed drift value restores the value. -/
lemma driftBytes_roundtrip (v : Int)
    (h3 : -2147483648 ≤ v) (h4 : v < 2147483648) :
    (if (v % 4294967296).toNat / 16777216 % 256 * 16777216 +
        (v % 4294967296).toNat / 65536 % 256 * 65536 +
        (v % 4294967296).toNat / 256 % 256 * 256 +
        (v % 4294967296).toNat % 256 < 2147483648 then
      (((v % 4294967296).toNat / 16777216 % 256 * 16777216 +
        (v % 4294967296).toNat / 65536 % 256 * 65536 +
        (v % 4294967296).toNat / 256 % 256 * 256 +
        (v % 4294967296).toNat % 256 : Nat) : Int)
     else
      (((v % 4294967296).toNat / 16777216 % 256 * 16777216 +
        (v % 4294967296).toNat / 65536 % 256 * 65536 +
        (v % 4294967296).toNat / 256 % 256 * 256 +
        (v % 4294967296).toNat % 256 : Nat) : Int) - 4294967296) = v := by
  split_ifs with hcase <;> omega

/-- C7: persisting the sync state writes exactly the 12-byte record
(magic `0xA5 0x5A`, 2-byte counters, 4-byte signed drift, 2 reserved
bytes); reloading the saved bytes restores the identical counters and
drift into any state (simulating a power cycle); and loading a buffer
with a wrong magic number leaves the zero-initialized state
untouched. -/
theorem persistedState_roundTrip (s : RTCState)
    (h1 : s.syncAttempts < 65536) (h2 : s.successfulSyncs < 65536)
    (h3 : -2147483648 ≤ s.totalDriftSeconds)
    (h4 : s.totalDriftSeconds < 2147483648) :
    (savePersistedData s).length = 12 ∧
    (savePersistedData s).take 2 = [0xA5, 0x5A] ∧
    (∀ s' : RTCState, loadPersistedData s' (savePersistedData s) =
      { s' with syncAttempts := s.syncAttempts,
                successfulSyncs := s.successfulSyncs,
                totalDriftSeconds := s.totalDriftSeconds }) ∧
    (∀ (d0 d1 d2 d3 d4 d5 d6 d7 d8 d9 : Nat) (rest : List Nat),
      ¬(d0 = 0xA5 ∧ d1 = 0x5A) →
      loadPersistedData (initialRTCState none)
        (d0 :: d1 :: d2 :: d3 :: d4 :: d5 :: d6 :: d7 :: d8 :: d9 :: rest) =
        initialRTCState none) := by
  refine ⟨rfl, rfl, fun s' => ?_, fun d0 d1 d2 d3 d4 d5 d6 d7 d8 d9 rest hmag => ?_⟩
  · simp only [savePersistedData, loadPersistedData]
    rw [if_pos (by decide : (((0xA5 : Nat) == 0xA5) && ((0x5A : Nat) == 0x5A)) = true),
        counterBytes_roundtrip s.syncAttempts h1,
        counterBytes_roundtrip s.successfulSyncs h2,
        driftBytes_roundtrip s.totalDriftSeconds h3 h4]
  · have hc : ¬((d0 == 0xA5 && d1 == 0x5A) = true) := by
      simp only [Bool.and_eq_true, beq_iff_eq]
      exact hmag
    simp [loadPersistedData, hc]

/-- Witness for C7: a state with 513 attempts, 2 successes and drift
−5 s round-trips through the 12-byte record. -/
theorem persistedState_roundTrip_witness :
    loadPersistedData (initialRTCState none)
      (savePersistedData
        { initialized := true, hasValidTime := true, syncAttempts := 513,
          successfulSyncs := 2, totalDriftSeconds := -5, hw := none }) =
    { initialRTCState none with syncAttempts := 513, successfulSyncs := 2,
                                totalDriftSeconds := -5 } :=
  (persistedState_roundTrip
    { initialized := true, hasValidTime := true, syncAttempts := 513,
      successfulSyncs := 2, totalDriftSeconds := -5, hw := none }
    (by decide) (by decide) (by decide) (by decide)).2.2.1
    (initialRTCState none)

/-- C8 (code bug): `parseTimeString` — and therefore
`setTimeFromNetwork` — rejects the cellular-module time format
`YY/MM/DD,HH:MM:SS±ZZ` that the header documents as its input format
(the call fails and leaves the state unchanged), while the ISO-8601
format is parsed successfully. -/
theorem cellularTimeFormat_rejected :
    parseTimeString "25/03/14,12:30:45+00" = none ∧
    setTimeFromNetwork rtcSampleState "25/03/14,12:30:45+00" true true =
      (false, rtcSampleState) ∧
    (parseTimeString "2025-03-14T12:30:45").isSome = true := by
  decide

end RTCTimeManager
